import Mathlib

/-!
Shallow embedding of the two PowerFlex Ansible modules
(`plugins/modules/dellemc_powerflex_sdc.py` and `plugins/modules/nvme_host.py`).

Each module's `perform_module_operation` is translated into a pure function
from a remote state and the module parameters to a run record holding the
outcome (success with `changed`/details, or the `fail_json` message), the
sequence of remote-API calls issued, and the resulting remote state.
Remote-API calls themselves (the external collaborator) are modelled as
always succeeding; `fail_json` short-circuits the invocation.
-/

/-- Python truthiness of an optional-string module parameter:
`None` and the empty string are falsy. -/
def pyTruthy : Option String → Bool
  | none => false
  | some s => s != ""

/-- Python `a if a else b` / `a or b` over optional strings. -/
def pyOr (a b : Option String) : Option String :=
  if pyTruthy a then a else b

/-- String interpolation of an optional parameter (Python prints `None`). -/
def optStr : Option String → String
  | none => "None"
  | some s => s

/-- Python `str.strip()` on a character list: drop whitespace from both
ends (ASCII whitespace; enough for the inputs at issue). -/
def stripChars (l : List Char) : List Char :=
  ((l.dropWhile Char.isWhitespace).reverse.dropWhile Char.isWhitespace).reverse

/-- Python `str.strip()`. -/
def pyStrip (s : String) : String := ⟨stripChars s.data⟩

/-- Python `param is not None and len(param.strip()) == 0`. -/
def blankSome : Option String → Bool
  | none => false
  | some s => pyStrip s == ""

/-- Outcome of one module invocation: `exit_json` with `changed` and the
details payload, or `fail_json` with its message. -/
inductive RunOutcome (α : Type) where
  | ok (changed : Bool) (details : α)
  | failed (msg : String)
deriving DecidableEq, Repr

/- ===================== SDC module ===================== -/

/-- A remote SDC object as stored by the array. -/
structure SdcRec where
  id : String
  name : String
  sdcIp : String
deriving DecidableEq, Repr

/-- Remote state visible to the SDC module: the SDC collection plus the
mapped-volume association (volume ids keyed by SDC id). -/
structure SdcRemote where
  sdcs : List SdcRec
  mapped : List (String × List String)
deriving DecidableEq, Repr

/-- Volumes mapped to an SDC id (`sdc.get_mapped_volumes`). -/
def mappedOf (remote : SdcRemote) (sdcId : String) : List String :=
  ((remote.mapped.find? (fun kv => kv.1 = sdcId)).map (fun kv => kv.2)).getD []

/-- The dict returned by `PowerFlexSdc.get_sdc`: the SDC record with the
`mapped_volumes` key attached. -/
structure SdcDetails where
  id : String
  name : String
  sdcIp : String
  mapped_volumes : List String
deriving DecidableEq, Repr

/-- Remote calls issued by the SDC module. -/
inductive SdcCall where
  | getFilter (field value : String)
  | getMapped (sdcId : String)
  | rename (sdcId newName : String)
deriving DecidableEq, Repr

/-- Whether an SDC remote call mutates remote state. -/
def SdcCall.isMutation : SdcCall → Bool
  | .rename _ _ => true
  | _ => false

/-- Field access used by `filter_fields` in `sdc.get`. -/
def sdcField (r : SdcRec) : String → String
  | "name" => r.name
  | "sdcIp" => r.sdcIp
  | _ => r.id

/-- `PowerFlexSdc.get_sdc`: pick the filter field with the source's
truthiness chain (name, then ip, else id), query, return `None` on zero
matches, otherwise the first match with its mapped volumes attached. -/
def get_sdc (remote : SdcRemote) (sdc_name sdc_ip sdc_id : Option String) :
    List SdcCall × Option SdcDetails :=
  let fv : String × String :=
    if pyTruthy sdc_name then ("name", optStr sdc_name)
    else if pyTruthy sdc_ip then ("sdcIp", optStr sdc_ip)
    else ("id", optStr sdc_id)
  match remote.sdcs.filter (fun r => sdcField r fv.1 = fv.2) with
  | [] => ([SdcCall.getFilter fv.1 fv.2], none)
  | r :: _ =>
    ([SdcCall.getFilter fv.1 fv.2, SdcCall.getMapped r.id],
     some { id := r.id, name := r.name, sdcIp := r.sdcIp,
            mapped_volumes := mappedOf remote r.id })

/-- `PowerFlexSdc.validate_parameters`: all-`None` check, then the
blank check over name, id, ip in that order. -/
def sdcValidateParameters (sdc_name sdc_id sdc_ip : Option String) :
    Option String :=
  if sdc_name.isNone && sdc_id.isNone && sdc_ip.isNone then
    some "Please provide sdc_name/sdc_id/sdc_ip with valid input."
  else if blankSome sdc_name then some "Please provide valid sdc_name"
  else if blankSome sdc_id then some "Please provide valid sdc_id"
  else if blankSome sdc_ip then some "Please provide valid sdc_ip"
  else none

/-- Module parameters of `dellemc_powerflex_sdc`. -/
structure SdcParams where
  sdc_name : Option String
  sdc_id : Option String
  sdc_ip : Option String
  sdc_new_name : Option String
  state : String
deriving DecidableEq, Repr

/-- Effect of `sdc.rename(sdc_id, name)` on the remote collection. -/
def renameRemoteSdc (remote : SdcRemote) (sdcId newName : String) :
    SdcRemote :=
  { remote with
      sdcs := remote.sdcs.map
        (fun r => if r.id = sdcId then { r with name := newName } else r) }

/-- One full run of the SDC module. -/
structure SdcRun where
  outcome : RunOutcome (Option SdcDetails)
  calls : List SdcCall
  remote : SdcRemote
deriving DecidableEq, Repr

/-- `PowerFlexSdc.perform_module_operation`. -/
def sdcReconcile (remote : SdcRemote) (p : SdcParams) : SdcRun :=
  match sdcValidateParameters p.sdc_name p.sdc_id p.sdc_ip with
  | some msg => { outcome := .failed msg, calls := [], remote := remote }
  | none =>
    let g := get_sdc remote p.sdc_name p.sdc_ip p.sdc_id
    let id_ip_name := optStr (pyOr p.sdc_ip (pyOr p.sdc_name p.sdc_id))
    if p.state = "present" && g.2.isNone then
      { outcome := .failed ("Could not find any SDC instance with identifier "
          ++ id_ip_name ++ "."),
        calls := g.1, remote := remote }
    else if p.state = "absent" && g.2.isSome then
      { outcome := .failed "Removal of SDC is not allowed through Ansible module.",
        calls := g.1, remote := remote }
    else
      match p.state == "present", g.2, p.sdc_new_name with
      | true, some d, some nn =>
        if pyStrip nn = "" then
          { outcome := .failed "Please provide valid SDC name.",
            calls := g.1, remote := remote }
        else
          let remote2 := renameRemoteSdc remote d.id nn
          let g2 := get_sdc remote2 (some nn) p.sdc_ip p.sdc_id
          { outcome := .ok true g2.2,
            calls := g.1 ++ SdcCall.rename d.id nn :: g2.1,
            remote := remote2 }
      | _, _, _ =>
        if p.state = "present" then
          let g2 := get_sdc remote p.sdc_name p.sdc_ip p.sdc_id
          { outcome := .ok false g2.2, calls := g.1 ++ g2.1, remote := remote }
        else
          { outcome := .ok false none, calls := g.1, remote := remote }

/- ===================== NVMe host module ===================== -/

/-- A remote NVMe host object; the tunable limits are stored numerically. -/
structure NvmeRec where
  id : String
  name : String
  nqn : String
  maxNumPaths : Nat
  maxNumSysPorts : Nat
deriving DecidableEq, Repr

/-- Remote state visible to the NVMe module; `freshId` is the id the array
assigns to the next created host. -/
structure NvmeRemote where
  hosts : List NvmeRec
  freshId : String
deriving DecidableEq, Repr

/-- Remote calls issued by the NVMe host module. -/
inductive NvmeCall where
  | getFilter (field value : String)
  | rename (hostId newName : String)
  | modifyMaxNumPaths (hostId value : String)
  | modifyMaxNumSysPorts (hostId value : String)
  | create (nqn : String) (name mnp mnsp : Option String)
  | delete (hostId : String)
deriving DecidableEq, Repr

/-- `PowerFlexNvmeHost.validate_parameters`: blank check over id and name
(in that order; `nqn` is not checked), then the all-`None` check. -/
def nvmeValidateParameters (nvme_host_id nvme_host_name nqn : Option String) :
    Option String :=
  if blankSome nvme_host_id then some "Please provide valid nvme_host_id"
  else if blankSome nvme_host_name then some "Please provide valid nvme_host_name"
  else if nvme_host_id.isNone && nvme_host_name.isNone && nqn.isNone then
    some "Please provide at least one of nvme_host_id, nvme_host_name or nqn"
  else none

/-- Zero-match handling of `PowerFlexNvmeHost.get_nvme_host`: absence is an
error exactly when the `nvme_host_id` parameter is truthy. -/
def nvmeCheckRes (res : List NvmeRec) (nvme_host_id : Option String)
    (id_name : String) : Except String (Option NvmeRec) :=
  match res with
  | [] =>
    if pyTruthy nvme_host_id then
      .error ("Unable to find NVMe host with identifier " ++ id_name)
    else .ok none
  | h :: _ => .ok (some h)

/-- `PowerFlexNvmeHost.get_nvme_host`: the source's truthiness chain picks
name, then id, then nqn as the single filter field. If every selector is
falsy the Python raises an `UnboundLocalError`, modelled as a failure. -/
def get_nvme_host (remote : NvmeRemote)
    (nvme_host_id nvme_host_name nqn : Option String) :
    List NvmeCall × Except String (Option NvmeRec) :=
  let id_name :=
    if pyTruthy nvme_host_name then optStr nvme_host_name
    else if pyTruthy nvme_host_id then optStr nvme_host_id
    else optStr nqn
  if pyTruthy nvme_host_name then
    ([NvmeCall.getFilter "name" (optStr nvme_host_name)],
     nvmeCheckRes (remote.hosts.filter (fun h => h.name = optStr nvme_host_name))
       nvme_host_id id_name)
  else if pyTruthy nvme_host_id then
    ([NvmeCall.getFilter "id" (optStr nvme_host_id)],
     nvmeCheckRes (remote.hosts.filter (fun h => h.id = optStr nvme_host_id))
       nvme_host_id id_name)
  else if pyTruthy nqn then
    ([NvmeCall.getFilter "nqn" (optStr nqn)],
     nvmeCheckRes (remote.hosts.filter (fun h => h.nqn = optStr nqn))
       nvme_host_id id_name)
  else
    ([], .error "local variable nvme_host_details referenced before assignment")

/-- Effect of `sdc.rename` on the NVMe host collection. -/
def renameRemoteNvme (remote : NvmeRemote) (hostId newName : String) :
    NvmeRemote :=
  { remote with
      hosts := remote.hosts.map
        (fun h => if h.id = hostId then { h with name := newName } else h) }

/-- The remote stores the numeric value of a supplied limit string
(external API behaviour): digits are folded left to right, so leading
zeros are dropped and "07" is stored as the number 7. -/
def limitValue (s : String) : Nat :=
  s.data.foldl (fun n c => n * 10 + (c.toNat - 48)) 0

/-- Effect of `host.modify_max_num_paths` on the collection. -/
def setMaxNumPaths (remote : NvmeRemote) (hostId : String) (v : String) :
    NvmeRemote :=
  { remote with
      hosts := remote.hosts.map
        (fun h => if h.id = hostId then { h with maxNumPaths := limitValue v } else h) }

/-- Effect of `host.modify_max_num_sys_ports` on the collection. -/
def setMaxNumSysPorts (remote : NvmeRemote) (hostId : String) (v : String) :
    NvmeRemote :=
  { remote with
      hosts := remote.hosts.map
        (fun h => if h.id = hostId then { h with maxNumSysPorts := limitValue v } else h) }

/-- `PowerFlexNvmeHost.perform_modify`: three independent field checks
(rename compares the raw strings; each limit compares the supplied string
against `str(current)` and fires only on a truthy value). Returns the
`modified` flag, the mutating calls issued, and the new remote state. -/
def perform_modify (remote : NvmeRemote) (d : NvmeRec)
    (nvme_host_new_name max_num_paths max_num_sys_ports : Option String) :
    Bool × List NvmeCall × NvmeRemote :=
  let step1 : Bool × List NvmeCall × NvmeRemote :=
    match nvme_host_new_name with
    | some s =>
      if s ≠ d.name then (true, [NvmeCall.rename d.id s], renameRemoteNvme remote d.id s)
      else (false, [], remote)
    | none => (false, [], remote)
  let step2 : Bool × List NvmeCall × NvmeRemote :=
    if pyTruthy max_num_paths && (optStr max_num_paths != toString d.maxNumPaths) then
      (true, [NvmeCall.modifyMaxNumPaths d.id (optStr max_num_paths)],
       setMaxNumPaths step1.2.2 d.id (optStr max_num_paths))
    else (false, [], step1.2.2)
  let step3 : Bool × List NvmeCall × NvmeRemote :=
    if pyTruthy max_num_sys_ports && (optStr max_num_sys_ports != toString d.maxNumSysPorts) then
      (true, [NvmeCall.modifyMaxNumSysPorts d.id (optStr max_num_sys_ports)],
       setMaxNumSysPorts step2.2.2 d.id (optStr max_num_sys_ports))
    else (false, [], step2.2.2)
  (step1.1 || step2.1 || step3.1, step1.2.1 ++ step2.2.1 ++ step3.2.1, step3.2.2)

/-- Module parameters of `nvme_host`. -/
structure NvmeParams where
  nvme_host_id : Option String
  nvme_host_name : Option String
  nvme_host_new_name : Option String
  nqn : Option String
  max_num_paths : Option String
  max_num_sys_ports : Option String
  state : String
deriving DecidableEq, Repr

/-- Effect of `host.create` on the remote: the array assigns the fresh id
and stores the supplied attributes (external API behaviour). -/
def createNvme (remote : NvmeRemote) (nqn : String)
    (name mnp mnsp : Option String) : NvmeRec :=
  { id := remote.freshId, name := name.getD "", nqn := nqn,
    maxNumPaths := limitValue (mnp.getD ""),
    maxNumSysPorts := limitValue (mnsp.getD "") }

/-- Effect of `sdc.delete` on the NVMe host collection. -/
def deleteNvme (remote : NvmeRemote) (hostId : String) : NvmeRemote :=
  { remote with hosts := remote.hosts.filter (fun h => h.id ≠ hostId) }

/-- `PowerFlexNvmeHost.create_host` (including `create_nvme_host`'s NQN
blank check and the fetch-by-created-id): returns the fetched details, the
`changed` flag, the calls issued and the new remote state. -/
def create_host (remote : NvmeRemote) (p : NvmeParams) :
    Except String (Option NvmeRec × Bool × List NvmeCall × NvmeRemote) :=
  if !pyTruthy p.nqn then
    .error "nqn parameter is required for creating an NVMe host."
  else if pyTruthy p.nvme_host_new_name then
    .error ("nvme_host_new_name parameter is not supported during creation "
      ++ "of a volume. Try renaming the NVMe host after the creation.")
  else if pyStrip (optStr p.nqn) = "" then
    .error "Please provide valid NQN."
  else
    let newRec := createNvme remote (optStr p.nqn) p.nvme_host_name
      p.max_num_paths p.max_num_sys_ports
    let remote2 : NvmeRemote :=
      { hosts := remote.hosts ++ [newRec], freshId := remote.freshId ++ "x" }
    let g := get_nvme_host remote2 (some newRec.id) none none
    match g.2 with
    | .error msg => .error msg
    | .ok details =>
      .ok (details, true,
        NvmeCall.create (optStr p.nqn) p.nvme_host_name p.max_num_paths
          p.max_num_sys_ports :: g.1,
        remote2)

/-- One full run of the NVMe host module. -/
structure NvmeRun where
  outcome : RunOutcome (Option NvmeRec)
  calls : List NvmeCall
  remote : NvmeRemote
deriving DecidableEq, Repr

/-- `PowerFlexNvmeHost.perform_module_operation`. -/
def nvmeReconcile (remote : NvmeRemote) (p : NvmeParams) : NvmeRun :=
  match nvmeValidateParameters p.nvme_host_id p.nvme_host_name p.nqn with
  | some msg => { outcome := .failed msg, calls := [], remote := remote }
  | none =>
    let g := get_nvme_host remote p.nvme_host_id p.nvme_host_name p.nqn
    match g.2 with
    | .error msg => { outcome := .failed msg, calls := g.1, remote := remote }
    | .ok details0 =>
      let step : Except String (Bool × Option NvmeRec × List NvmeCall × NvmeRemote) :=
        if p.state = "absent" then
          match details0 with
          | some d => .ok (true, some d, [NvmeCall.delete d.id], deleteNvme remote d.id)
          | none => .ok (false, none, [], remote)
        else if p.state = "present" then
          match details0 with
          | some d =>
            let m := perform_modify remote d p.nvme_host_new_name
              p.max_num_paths p.max_num_sys_ports
            .ok (m.1, some d, m.2.1, m.2.2)
          | none =>
            match create_host remote p with
            | .error msg => .error msg
            | .ok r => .ok (r.2.1, r.1, r.2.2.1, r.2.2.2)
        else .ok (false, details0, [], remote)
      match step with
      | .error msg => { outcome := .failed msg, calls := g.1, remote := remote }
      | .ok r =>
        if r.1 then
          let g2 := get_nvme_host r.2.2.2 p.nvme_host_id
            (pyOr p.nvme_host_new_name p.nvme_host_name) p.nqn
          match g2.2 with
          | .error msg =>
            { outcome := .failed msg, calls := g.1 ++ r.2.2.1 ++ g2.1,
              remote := r.2.2.2 }
          | .ok details2 =>
            { outcome := .ok true details2, calls := g.1 ++ r.2.2.1 ++ g2.1,
              remote := r.2.2.2 }
        else
          { outcome := .ok false r.2.1, calls := g.1 ++ r.2.2.1,
            remote := r.2.2.2 }

/- ===================== Helper lemmas ===================== -/

/-- Every call issued by `get_sdc` is a read (a filter query or a
mapped-volume listing), never a mutation. -/
theorem get_sdc_calls_readonly (remote : SdcRemote) (a b c : Option String) :
    ∀ cl ∈ (get_sdc remote a b c).1, cl.isMutation = false := by
  unfold get_sdc
  intro cl hcl
  rcases hf : remote.sdcs.filter
      (fun r => sdcField r (if pyTruthy a then ("name", optStr a)
        else if pyTruthy b then ("sdcIp", optStr b)
        else ("id", optStr c)).1 =
        (if pyTruthy a then ("name", optStr a)
        else if pyTruthy b then ("sdcIp", optStr b)
        else ("id", optStr c)).2) with _ | ⟨r, rest⟩ <;>
    simp only [hf] at hcl <;> simp at hcl
  · subst hcl; rfl
  · rcases hcl with hcl | hcl <;> subst hcl <;> rfl

/- ===================== Claim theorems ===================== -/

/-- C4: when every selector is absent (`None`), both the SDC and the NVMe
variant fail with the missing-identifier message before issuing any remote
call, for every remote state and every value of the remaining parameters. -/
theorem C4_missing_identifier_fails (sremote : SdcRemote) (nremote : NvmeRemote)
    (nn nn2 mnp mnsp : Option String) (st st2 : String) :
    sdcReconcile sremote ⟨none, none, none, nn, st⟩ =
      ⟨.failed "Please provide sdc_name/sdc_id/sdc_ip with valid input.", [], sremote⟩ ∧
    nvmeReconcile nremote ⟨none, none, nn2, none, mnp, mnsp, st2⟩ =
      ⟨.failed "Please provide at least one of nvme_host_id, nvme_host_name or nqn",
       [], nremote⟩ := by
  constructor <;> rfl

/-- C1 counterexample: an SDC rename request whose new name equals the
current remote name still issues a rename call and reports `changed=true`,
contradicting the claimed no-op/`changed=false` behaviour. -/
theorem C1_counterexample :
    (sdcReconcile ⟨[⟨"1", "B", "P"⟩], []⟩
        ⟨some "B", none, none, some "B", "present"⟩).outcome =
      RunOutcome.ok true (some ⟨"1", "B", "P", []⟩) ∧
    SdcCall.rename "1" "B" ∈
      (sdcReconcile ⟨[⟨"1", "B", "P"⟩], []⟩
        ⟨some "B", none, none, some "B", "present"⟩).calls := by
  constructor
  · rfl
  · decide

/-- C3 counterexample: an SDC invocation with `state=absent` for a
non-existing resource does not fail; it is a no-op returning
`changed=false`, contradicting "always fails with UnsupportedOperation
regardless of whether the resource exists". -/
theorem C3_counterexample :
    sdcReconcile ⟨[], []⟩ ⟨some "ghost", none, none, none, "absent"⟩ =
      ⟨RunOutcome.ok false none, [SdcCall.getFilter "name" "ghost"], ⟨[], []⟩⟩ := by
  rfl

/-- C5 counterexample: an NVMe-host invocation whose only selector is the
whitespace-only nqn `" "` passes validation and (with `state=absent`, no
match) succeeds with `changed=false` instead of failing with
`InvalidIdentifier`. -/
theorem C5_counterexample :
    nvmeReconcile ⟨[], "f"⟩ ⟨none, none, none, some " ", none, none, "absent"⟩ =
      ⟨RunOutcome.ok false none, [NvmeCall.getFilter "nqn" " "], ⟨[], "f"⟩⟩ := by
  rfl

/-- C6 counterexample: an SDC id-based lookup yielding zero matches with
`state=absent` does not fail with `ResourceNotFound`; the invocation is a
no-op returning `changed=false`. -/
theorem C6_counterexample :
    sdcReconcile ⟨[⟨"a", "n", "i"⟩], []⟩ ⟨none, some "gone", none, none, "absent"⟩ =
      ⟨RunOutcome.ok false none, [SdcCall.getFilter "id" "gone"],
       ⟨[⟨"a", "n", "i"⟩], []⟩⟩ := by
  rfl

/-- C7 counterexample: an NVMe-host lookup given both `nvme_host_id` and
`nqn` queries by id (and resolves the id-matching host), not by nqn as the
claim states. -/
theorem C7_counterexample :
    nvmeReconcile ⟨[⟨"i1", "n1", "q1", 1, 1⟩, ⟨"i2", "n2", "q2", 2, 2⟩], "f"⟩
        ⟨some "i1", none, none, some "q2", none, none, "present"⟩ =
      ⟨RunOutcome.ok false (some ⟨"i1", "n1", "q1", 1, 1⟩),
       [NvmeCall.getFilter "id" "i1"],
       ⟨[⟨"i1", "n1", "q1", 1, 1⟩, ⟨"i2", "n2", "q2", 2, 2⟩], "f"⟩⟩ := by
  rfl

/-- C8 counterexample: an NVMe-host invocation supplying the
whitespace-only new name `" "` (different from the current name) issues the
rename call with the blank value and succeeds, instead of failing with
`InvalidInput` and issuing no rename. -/
theorem C8_counterexample :
    (nvmeReconcile ⟨[⟨"i1", "A", "q1", 1, 1⟩], "f"⟩
        ⟨none, none, some " ", some "q1", none, none, "present"⟩).outcome =
      RunOutcome.ok true (some ⟨"i1", " ", "q1", 1, 1⟩) ∧
    NvmeCall.rename "i1" " " ∈
      (nvmeReconcile ⟨[⟨"i1", "A", "q1", 1, 1⟩], "f"⟩
        ⟨none, none, some " ", some "q1", none, none, "present"⟩).calls := by
  constructor
  · rfl
  · decide

/-- C9 counterexample: after renaming an SDC resolved by ip, the final
snapshot is re-fetched by the new name — the known id `"1"` is never used
as a filter — contradicting "re-fetch by the most specific known selector,
id if known". -/
theorem C9_counterexample :
    sdcReconcile ⟨[⟨"1", "A", "P"⟩], [("1", ["v1"])]⟩
        ⟨none, none, some "P", some "B", "present"⟩ =
      ⟨RunOutcome.ok true (some ⟨"1", "B", "P", ["v1"]⟩),
       [SdcCall.getFilter "sdcIp" "P", SdcCall.getMapped "1",
        SdcCall.rename "1" "B", SdcCall.getFilter "name" "B",
        SdcCall.getMapped "1"],
       ⟨[⟨"1", "B", "P"⟩], [("1", ["v1"])]⟩⟩ ∧
    SdcCall.getFilter "id" "1" ∉
      (sdcReconcile ⟨[⟨"1", "A", "P"⟩], [("1", ["v1"])]⟩
        ⟨none, none, some "P", some "B", "present"⟩).calls := by
  constructor
  · rfl
  · decide

/-- C2: a tunable-limit modify call is issued exactly when the supplied
value is truthy (non-`None`, non-empty) and differs from the stringified
current value; in particular an existing host with `maxNumPaths = 3` and
desired `max_num_paths = "3"` yields no modify call and `changed=false`. -/
theorem C2_limit_string_normalized :
    (∀ (remote : NvmeRemote) (d : NvmeRec) (nn mnp mnsp : Option String),
       NvmeCall.modifyMaxNumPaths d.id (optStr mnp) ∈
           (perform_modify remote d nn mnp mnsp).2.1 ↔
         pyTruthy mnp = true ∧ optStr mnp ≠ toString d.maxNumPaths) ∧
    nvmeReconcile ⟨[⟨"h1", "host1", "nqn.x", 3, 4⟩], "f"⟩
        ⟨none, none, none, some "nqn.x", some "3", none, "present"⟩ =
      ⟨RunOutcome.ok false (some ⟨"h1", "host1", "nqn.x", 3, 4⟩),
       [NvmeCall.getFilter "nqn" "nqn.x"],
       ⟨[⟨"h1", "host1", "nqn.x", 3, 4⟩], "f"⟩⟩ := by
  constructor
  · intro remote d nn mnp mnsp
    rcases nn with _ | s
    · by_cases h2 : pyTruthy mnp = true ∧ ¬ optStr mnp = toString d.maxNumPaths <;>
        by_cases h3 : pyTruthy mnsp = true ∧ ¬ optStr mnsp = toString d.maxNumSysPorts <;>
        simp [perform_modify, Bool.and_eq_true, bne_iff_ne, h2, h3]
    · by_cases h1 : s = d.name <;>
        by_cases h2 : pyTruthy mnp = true ∧ ¬ optStr mnp = toString d.maxNumPaths <;>
        by_cases h3 : pyTruthy mnsp = true ∧ ¬ optStr mnsp = toString d.maxNumSysPorts <;>
        simp [perform_modify, Bool.and_eq_true, bne_iff_ne, h1, h2, h3]
  · rfl

/-- C10: an SDC invocation with `state=present` and no new name that passes
validation and finds the resource issues only read calls, leaves the remote
state untouched, and returns `changed=false` with the current details. -/
theorem C10_present_no_newname_readonly (remote : SdcRemote) (p : SdcParams)
    (d : SdcDetails) (hst : p.state = "present") (hnn : p.sdc_new_name = none)
    (hv : sdcValidateParameters p.sdc_name p.sdc_id p.sdc_ip = none)
    (hd : (get_sdc remote p.sdc_name p.sdc_ip p.sdc_id).2 = some d) :
    (sdcReconcile remote p).outcome = RunOutcome.ok false (some d) ∧
    (sdcReconcile remote p).remote = remote ∧
    ∀ c ∈ (sdcReconcile remote p).calls, c.isMutation = false := by
  have hrun : sdcReconcile remote p =
      { outcome := .ok false (some d),
        calls := (get_sdc remote p.sdc_name p.sdc_ip p.sdc_id).1
          ++ (get_sdc remote p.sdc_name p.sdc_ip p.sdc_id).1,
        remote := remote } := by
    simp only [sdcReconcile, hv, hst, hnn, hd]
    simp
  refine ⟨by rw [hrun], by rw [hrun], ?_⟩
  rw [hrun]
  intro c hc
  rcases List.mem_append.1 hc with h | h <;>
    exact get_sdc_calls_readonly remote p.sdc_name p.sdc_ip p.sdc_id c h

/-- Witness for C10 at a concrete input. -/
theorem C10_present_no_newname_readonly_witness :
    (sdcReconcile ⟨[⟨"1", "A", "P"⟩], [("1", ["v1"])]⟩
        ⟨some "A", none, none, none, "present"⟩).outcome =
      RunOutcome.ok false (some ⟨"1", "A", "P", ["v1"]⟩) ∧
    (sdcReconcile ⟨[⟨"1", "A", "P"⟩], [("1", ["v1"])]⟩
        ⟨some "A", none, none, none, "present"⟩).remote =
      ⟨[⟨"1", "A", "P"⟩], [("1", ["v1"])]⟩ ∧
    ∀ c ∈ (sdcReconcile ⟨[⟨"1", "A", "P"⟩], [("1", ["v1"])]⟩
        ⟨some "A", none, none, none, "present"⟩).calls, c.isMutation = false :=
  C10_present_no_newname_readonly ⟨[⟨"1", "A", "P"⟩], [("1", ["v1"])]⟩
    ⟨some "A", none, none, none, "present"⟩ ⟨"1", "A", "P", ["v1"]⟩
    rfl rfl rfl rfl

/-- C3 amended: with `state=absent`, the SDC variant fails with the
removal-not-allowed message exactly when the resource exists; when the
lookup finds nothing, the invocation is a no-op returning `changed=false`
with no details (as the decision table states). -/
theorem C3_absent_fails_only_when_exists (remote : SdcRemote) (p : SdcParams)
    (hst : p.state = "absent")
    (hv : sdcValidateParameters p.sdc_name p.sdc_id p.sdc_ip = none) :
    ((get_sdc remote p.sdc_name p.sdc_ip p.sdc_id).2.isSome →
      (sdcReconcile remote p).outcome =
        RunOutcome.failed "Removal of SDC is not allowed through Ansible module.") ∧
    ((get_sdc remote p.sdc_name p.sdc_ip p.sdc_id).2 = none →
      (sdcReconcile remote p).outcome = RunOutcome.ok false none) := by
  constructor
  · intro hsome
    simp only [sdcReconcile, hv, hst]
    simp [hsome]
  · intro hnone
    simp only [sdcReconcile, hv, hst, hnone]
    simp

/-- Witness for C3's amended theorem at a concrete input. -/
theorem C3_absent_fails_only_when_exists_witness :
    ((get_sdc ⟨[⟨"a", "n", "i"⟩], []⟩ (some "n") none none).2.isSome →
      (sdcReconcile ⟨[⟨"a", "n", "i"⟩], []⟩
          ⟨some "n", none, none, none, "absent"⟩).outcome =
        RunOutcome.failed "Removal of SDC is not allowed through Ansible module.") ∧
    ((get_sdc ⟨[⟨"a", "n", "i"⟩], []⟩ (some "n") none none).2 = none →
      (sdcReconcile ⟨[⟨"a", "n", "i"⟩], []⟩
          ⟨some "n", none, none, none, "absent"⟩).outcome =
        RunOutcome.ok false none) :=
  C3_absent_fails_only_when_exists ⟨[⟨"a", "n", "i"⟩], []⟩
    ⟨some "n", none, none, none, "absent"⟩ rfl rfl

/-- A string whose stripped form is nonempty is itself nonempty. -/
theorem pyStrip_ne_empty (s : String) (hs : pyStrip s ≠ "") : s ≠ "" := by
  intro h
  subst h
  exact hs rfl

/-- C5 amended: a whitespace-only value fails validation for the SDC
name/id/ip selectors and the NVMe name/id selectors (with the respective
messages), but the NVMe `nqn` selector is not validated at all: a
whitespace-only nqn passes `validate_parameters`. -/
theorem C5_blank_selector_validation (sremote : SdcRemote) (nremote : NvmeRemote)
    (s : String) (hs : pyStrip s = "")
    (nn nn2 mnp mnsp oq : Option String) (st st2 : String) :
    (sdcReconcile sremote ⟨some s, none, none, nn, st⟩).outcome =
      RunOutcome.failed "Please provide valid sdc_name" ∧
    (sdcReconcile sremote ⟨none, some s, none, nn, st⟩).outcome =
      RunOutcome.failed "Please provide valid sdc_id" ∧
    (sdcReconcile sremote ⟨none, none, some s, nn, st⟩).outcome =
      RunOutcome.failed "Please provide valid sdc_ip" ∧
    (nvmeReconcile nremote ⟨some s, none, nn2, oq, mnp, mnsp, st2⟩).outcome =
      RunOutcome.failed "Please provide valid nvme_host_id" ∧
    (nvmeReconcile nremote ⟨none, some s, nn2, oq, mnp, mnsp, st2⟩).outcome =
      RunOutcome.failed "Please provide valid nvme_host_name" ∧
    nvmeValidateParameters none none (some s) = none := by
  refine ⟨?_, ?_, ?_, ?_, ?_, ?_⟩ <;>
    simp [sdcReconcile, nvmeReconcile, sdcValidateParameters,
      nvmeValidateParameters, blankSome, hs]

/-- Witness for C5's amended theorem at the whitespace-only string. -/
theorem C5_blank_selector_validation_witness :
    (sdcReconcile ⟨[], []⟩ ⟨some " ", none, none, none, "present"⟩).outcome =
      RunOutcome.failed "Please provide valid sdc_name" ∧
    (sdcReconcile ⟨[], []⟩ ⟨none, some " ", none, none, "present"⟩).outcome =
      RunOutcome.failed "Please provide valid sdc_id" ∧
    (sdcReconcile ⟨[], []⟩ ⟨none, none, some " ", none, "present"⟩).outcome =
      RunOutcome.failed "Please provide valid sdc_ip" ∧
    (nvmeReconcile ⟨[], "f"⟩ ⟨some " ", none, none, none, none, none, "present"⟩).outcome =
      RunOutcome.failed "Please provide valid nvme_host_id" ∧
    (nvmeReconcile ⟨[], "f"⟩ ⟨none, some " ", none, none, none, none, "present"⟩).outcome =
      RunOutcome.failed "Please provide valid nvme_host_name" ∧
    nvmeValidateParameters none none (some " ") = none :=
  C5_blank_selector_validation ⟨[], []⟩ ⟨[], "f"⟩ " " rfl
    none none none none none "present" "present"

/-- C6 amended: on zero matches, the NVMe variant fails with the not-found
message whenever an id was supplied (whatever the requested state), while
the SDC variant never fails inside the lookup: an id-based zero match fails
only under `state=present`, and is a `changed=false` no-op under
`state=absent`. -/
theorem C6_zero_match_id_lookup (nremote : NvmeRemote) (sremote : SdcRemote)
    (i : String) (hi : pyStrip i ≠ "")
    (nn nn2 mnp mnsp oq : Option String) (st : String)
    (hnz : ∀ h ∈ nremote.hosts, h.id ≠ i)
    (hsz : ∀ r ∈ sremote.sdcs, r.id ≠ i) :
    (nvmeReconcile nremote ⟨some i, none, nn2, oq, mnp, mnsp, st⟩).outcome =
      RunOutcome.failed ("Unable to find NVMe host with identifier " ++ i) ∧
    (sdcReconcile sremote ⟨none, some i, none, nn, "present"⟩).outcome =
      RunOutcome.failed
        ("Could not find any SDC instance with identifier " ++ i ++ ".") ∧
    (sdcReconcile sremote ⟨none, some i, none, nn, "absent"⟩).outcome =
      RunOutcome.ok false none := by
  have hne : i ≠ "" := pyStrip_ne_empty i hi
  have hbne : (pyStrip i == "") = false := by
    simp [hi]
  have hnfilter : nremote.hosts.filter (fun h => h.id = i) = [] := by
    rw [List.filter_eq_nil_iff]
    intro a ha
    simpa using hnz a ha
  have hsfilter : ∀ v : String, sremote.sdcs.filter (fun r => sdcField r "id" = v) =
      sremote.sdcs.filter (fun r => r.id = v) := by
    intro v
    rfl
  have hsfilter2 : sremote.sdcs.filter (fun r => r.id = i) = [] := by
    rw [List.filter_eq_nil_iff]
    intro a ha
    simpa using hsz a ha
  refine ⟨?_, ?_, ?_⟩
  · simp [nvmeReconcile, nvmeValidateParameters, blankSome, hbne,
      get_nvme_host, pyTruthy, hne, nvmeCheckRes, optStr, hnfilter]
  · simp [sdcReconcile, sdcValidateParameters, blankSome, hbne,
      get_sdc, pyTruthy, hne, optStr, pyOr, hsfilter, hsfilter2]
  · simp [sdcReconcile, sdcValidateParameters, blankSome, hbne,
      get_sdc, pyTruthy, hne, optStr, pyOr, hsfilter, hsfilter2]

/-- Witness for C6's amended theorem at a concrete input. -/
theorem C6_zero_match_id_lookup_witness :
    (nvmeReconcile ⟨[], "f"⟩ ⟨some "gone", none, none, none, none, none, "absent"⟩).outcome =
      RunOutcome.failed ("Unable to find NVMe host with identifier " ++ "gone") ∧
    (sdcReconcile ⟨[], []⟩ ⟨none, some "gone", none, none, "present"⟩).outcome =
      RunOutcome.failed
        ("Could not find any SDC instance with identifier " ++ "gone" ++ ".") ∧
    (sdcReconcile ⟨[], []⟩ ⟨none, some "gone", none, none, "absent"⟩).outcome =
      RunOutcome.ok false none :=
  C6_zero_match_id_lookup ⟨[], "f"⟩ ⟨[], []⟩ "gone" (by decide)
    none none none none none "absent" (by simp) (by simp)

/-- C7 amended: each lookup queries exactly one filter field, chosen by
the first truthy selector in the fixed order name, id, nqn for the NVMe
variant (so given both `nvme_host_id` and `nqn` it queries by id), and
name, ip, id for the SDC variant. -/
theorem C7_lookup_priority :
    (∀ (r : NvmeRemote) (oid onm onq : Option String), pyTruthy onm = true →
       (get_nvme_host r oid onm onq).1 =
         [NvmeCall.getFilter "name" (optStr onm)]) ∧
    (∀ (r : NvmeRemote) (oid onm onq : Option String),
       pyTruthy onm = false → pyTruthy oid = true →
       (get_nvme_host r oid onm onq).1 =
         [NvmeCall.getFilter "id" (optStr oid)]) ∧
    (∀ (r : NvmeRemote) (oid onm onq : Option String),
       pyTruthy onm = false → pyTruthy oid = false → pyTruthy onq = true →
       (get_nvme_host r oid onm onq).1 =
         [NvmeCall.getFilter "nqn" (optStr onq)]) ∧
    (∀ (r : SdcRemote) (onm oip oid : Option String), pyTruthy onm = true →
       (get_sdc r onm oip oid).1.head? =
         some (SdcCall.getFilter "name" (optStr onm))) ∧
    (∀ (r : SdcRemote) (onm oip oid : Option String),
       pyTruthy onm = false → pyTruthy oip = true →
       (get_sdc r onm oip oid).1.head? =
         some (SdcCall.getFilter "sdcIp" (optStr oip))) ∧
    (∀ (r : SdcRemote) (onm oip oid : Option String),
       pyTruthy onm = false → pyTruthy oip = false →
       (get_sdc r onm oip oid).1.head? =
         some (SdcCall.getFilter "id" (optStr oid))) := by
  refine ⟨?_, ?_, ?_, ?_, ?_, ?_⟩
  · intro r oid onm onq h1
    simp [get_nvme_host, h1]
  · intro r oid onm onq h1 h2
    simp [get_nvme_host, h1, h2]
  · intro r oid onm onq h1 h2 h3
    simp [get_nvme_host, h1, h2, h3]
  · intro r onm oip oid h1
    rcases hf : r.sdcs.filter (fun x => sdcField x "name" = optStr onm) with _ | ⟨a, l⟩ <;>
      simp [get_sdc, h1, hf]
  · intro r onm oip oid h1 h2
    rcases hf : r.sdcs.filter (fun x => sdcField x "sdcIp" = optStr oip) with _ | ⟨a, l⟩ <;>
      simp [get_sdc, h1, h2, hf]
  · intro r onm oip oid h1 h2
    rcases hf : r.sdcs.filter (fun x => sdcField x "id" = optStr oid) with _ | ⟨a, l⟩ <;>
      simp [get_sdc, h1, h2, hf]

/-- Witness for C7's amended theorem at concrete selector combinations. -/
theorem C7_lookup_priority_witness :
    (get_nvme_host ⟨[], "f"⟩ (some "i") (some "n") (some "q")).1 =
      [NvmeCall.getFilter "name" "n"] ∧
    (get_nvme_host ⟨[], "f"⟩ (some "i") none (some "q")).1 =
      [NvmeCall.getFilter "id" "i"] ∧
    (get_nvme_host ⟨[], "f"⟩ none none (some "q")).1 =
      [NvmeCall.getFilter "nqn" "q"] ∧
    (get_sdc ⟨[], []⟩ (some "n") (some "p") (some "i")).1.head? =
      some (SdcCall.getFilter "name" "n") ∧
    (get_sdc ⟨[], []⟩ none (some "p") (some "i")).1.head? =
      some (SdcCall.getFilter "sdcIp" "p") ∧
    (get_sdc ⟨[], []⟩ none none (some "i")).1.head? =
      some (SdcCall.getFilter "id" "i") :=
  ⟨C7_lookup_priority.1 ⟨[], "f"⟩ (some "i") (some "n") (some "q") rfl,
   C7_lookup_priority.2.1 ⟨[], "f"⟩ (some "i") none (some "q") rfl rfl,
   C7_lookup_priority.2.2.1 ⟨[], "f"⟩ none none (some "q") rfl rfl rfl,
   C7_lookup_priority.2.2.2.1 ⟨[], []⟩ (some "n") (some "p") (some "i") rfl,
   C7_lookup_priority.2.2.2.2.1 ⟨[], []⟩ none (some "p") (some "i") rfl rfl,
   C7_lookup_priority.2.2.2.2.2 ⟨[], []⟩ none none (some "i") rfl rfl⟩

/-- C8 amended: the SDC rename path rejects a blank new name with the
invalid-name message before issuing any mutating call, but the NVMe
variant performs no blank check on the new name: whenever the supplied new
name differs from the current name — including blank values — the rename
call is issued with that value. -/
theorem C8_blank_new_name (remote : SdcRemote) (p : SdcParams) (s : String)
    (hst : p.state = "present") (hnn : p.sdc_new_name = some s)
    (hblank : pyStrip s = "")
    (hv : sdcValidateParameters p.sdc_name p.sdc_id p.sdc_ip = none)
    (hd : (get_sdc remote p.sdc_name p.sdc_ip p.sdc_id).2.isSome = true) :
    ((sdcReconcile remote p).outcome =
        RunOutcome.failed "Please provide valid SDC name." ∧
     ∀ c ∈ (sdcReconcile remote p).calls, c.isMutation = false) ∧
    ∀ (nr : NvmeRemote) (nd : NvmeRec) (t : String) (mnp mnsp : Option String),
      t ≠ nd.name →
      NvmeCall.rename nd.id t ∈ (perform_modify nr nd (some t) mnp mnsp).2.1 := by
  obtain ⟨d, hd2⟩ := Option.isSome_iff_exists.mp hd
  have hrun : sdcReconcile remote p =
      { outcome := .failed "Please provide valid SDC name.",
        calls := (get_sdc remote p.sdc_name p.sdc_ip p.sdc_id).1,
        remote := remote } := by
    simp only [sdcReconcile, hv, hst, hnn, hd2]
    simp [hblank]
  refine ⟨⟨by rw [hrun], ?_⟩, ?_⟩
  · rw [hrun]
    intro c hc
    exact get_sdc_calls_readonly remote p.sdc_name p.sdc_ip p.sdc_id c hc
  · intro nr nd t mnp mnsp ht
    by_cases h2 : pyTruthy mnp = true ∧ ¬ optStr mnp = toString nd.maxNumPaths <;>
      by_cases h3 : pyTruthy mnsp = true ∧ ¬ optStr mnsp = toString nd.maxNumSysPorts <;>
      simp [perform_modify, Bool.and_eq_true, bne_iff_ne, ht, h2, h3]

/-- Witness for C8's amended theorem at a concrete input. -/
theorem C8_blank_new_name_witness :
    ((sdcReconcile ⟨[⟨"1", "A", "P"⟩], []⟩
        ⟨some "A", none, none, some " ", "present"⟩).outcome =
        RunOutcome.failed "Please provide valid SDC name." ∧
     ∀ c ∈ (sdcReconcile ⟨[⟨"1", "A", "P"⟩], []⟩
        ⟨some "A", none, none, some " ", "present"⟩).calls, c.isMutation = false) ∧
    ∀ (nr : NvmeRemote) (nd : NvmeRec) (t : String) (mnp mnsp : Option String),
      t ≠ nd.name →
      NvmeCall.rename nd.id t ∈ (perform_modify nr nd (some t) mnp mnsp).2.1 :=
  C8_blank_new_name ⟨[⟨"1", "A", "P"⟩], []⟩
    ⟨some "A", none, none, some " ", "present"⟩ " " rfl rfl rfl rfl rfl

/-- Full run of the SDC module on a one-element collection, resolving the
resource by name and renaming it: lookup, rename, then a re-fetch by the
new name with mapped volumes attached. -/
theorem sdcRenameSingletonRun (h : SdcRec) (mv : List (String × List String))
    (nn : String) (hname : pyStrip h.name ≠ "") (hnn : pyStrip nn ≠ "") :
    sdcReconcile ⟨[h], mv⟩ ⟨some h.name, none, none, some nn, "present"⟩ =
      ⟨RunOutcome.ok true (some ⟨h.id, nn, h.sdcIp, mappedOf ⟨[h], mv⟩ h.id⟩),
       [SdcCall.getFilter "name" h.name, SdcCall.getMapped h.id,
        SdcCall.rename h.id nn, SdcCall.getFilter "name" nn,
        SdcCall.getMapped h.id],
       ⟨[{h with name := nn}], mv⟩⟩ := by
  have hne : h.name ≠ "" := pyStrip_ne_empty _ hname
  have hnne : nn ≠ "" := pyStrip_ne_empty _ hnn
  have hv : sdcValidateParameters (some h.name) none none = none := by
    simp [sdcValidateParameters, blankSome, hname]
  have hp1 : pyTruthy (some h.name) = true := by simp [pyTruthy, hne]
  have hp2 : pyTruthy (some nn) = true := by simp [pyTruthy, hnne]
  have hget1 : get_sdc ⟨[h], mv⟩ (some h.name) none none =
      ([SdcCall.getFilter "name" h.name, SdcCall.getMapped h.id],
       some ⟨h.id, h.name, h.sdcIp, mappedOf ⟨[h], mv⟩ h.id⟩) := by
    simp [get_sdc, hp1, optStr, sdcField, mappedOf]
  have hget2 : get_sdc ⟨[{h with name := nn}], mv⟩ (some nn) none none =
      ([SdcCall.getFilter "name" nn, SdcCall.getMapped h.id],
       some ⟨h.id, nn, h.sdcIp, mappedOf ⟨[h], mv⟩ h.id⟩) := by
    simp [get_sdc, hp2, optStr, sdcField, mappedOf]
  have hrem : renameRemoteSdc ⟨[h], mv⟩ h.id nn = ⟨[{h with name := nn}], mv⟩ := by
    simp [renameRemoteSdc]
  simp only [sdcReconcile, hv, hget1]
  simp [hrem, hget2, hnn]

/-- Full run of the NVMe host module on a one-host remote, resolving the
host by nqn and renaming it: lookup by nqn, rename, then a re-fetch by
the new name. -/
theorem nvmeRenameSingletonRun (h : NvmeRec) (f B : String)
    (hq : h.nqn ≠ "") (hB : B ≠ "") (hd : B ≠ h.name) :
    nvmeReconcile ⟨[h], f⟩
        ⟨none, none, some B, some h.nqn, none, none, "present"⟩ =
      ⟨RunOutcome.ok true (some { h with name := B }),
       [NvmeCall.getFilter "nqn" h.nqn, NvmeCall.rename h.id B,
        NvmeCall.getFilter "name" B],
       ⟨[{ h with name := B }], f⟩⟩ := by
  have hB1 : pyTruthy (some B) = true := by simp [pyTruthy, hB]
  have hval : nvmeValidateParameters none none (some h.nqn) = none := by
    simp [nvmeValidateParameters, blankSome]
  have hget1 : get_nvme_host ⟨[h], f⟩ none none (some h.nqn) =
      ([NvmeCall.getFilter "nqn" h.nqn], .ok (some h)) := by
    simp [get_nvme_host, pyTruthy, hq, optStr, nvmeCheckRes]
  have hmod1 : perform_modify ⟨[h], f⟩ h (some B) none none =
      (true, [NvmeCall.rename h.id B], ⟨[{ h with name := B }], f⟩) := by
    simp [perform_modify, pyTruthy, hd, renameRemoteNvme, optStr]
  have hget2 : get_nvme_host ⟨[{ h with name := B }], f⟩ none (some B) (some h.nqn) =
      ([NvmeCall.getFilter "name" B], .ok (some { h with name := B })) := by
    simp [get_nvme_host, pyTruthy, hB, optStr, nvmeCheckRes]
  simp only [nvmeReconcile, hval, hget1, hmod1]
  simp [pyOr, hB1]
  simp [hget2]

/-- C9 amended: after a rename the final snapshot is re-fetched from the
post-mutation remote state (with the mapped-volume child list attached for
the SDC kind), but in both variants the selector used for the re-fetch is
the new name — not the id, which is known but never used as a filter; with
no mutation the original selectors are reused. -/
theorem C9_refetch_by_new_name (h : SdcRec) (mv : List (String × List String))
    (nn : String) (hname : pyStrip h.name ≠ "") (hnn : pyStrip nn ≠ "") :
    (sdcReconcile ⟨[h], mv⟩ ⟨some h.name, none, none, some nn, "present"⟩ =
      ⟨RunOutcome.ok true (some ⟨h.id, nn, h.sdcIp, mappedOf ⟨[h], mv⟩ h.id⟩),
       [SdcCall.getFilter "name" h.name, SdcCall.getMapped h.id,
        SdcCall.rename h.id nn, SdcCall.getFilter "name" nn,
        SdcCall.getMapped h.id],
       ⟨[{h with name := nn}], mv⟩⟩) ∧
    ∀ (n : NvmeRec) (f B : String), n.nqn ≠ "" → B ≠ "" → B ≠ n.name →
      nvmeReconcile ⟨[n], f⟩
          ⟨none, none, some B, some n.nqn, none, none, "present"⟩ =
        ⟨RunOutcome.ok true (some { n with name := B }),
         [NvmeCall.getFilter "nqn" n.nqn, NvmeCall.rename n.id B,
          NvmeCall.getFilter "name" B],
         ⟨[{ n with name := B }], f⟩⟩ :=
  ⟨sdcRenameSingletonRun h mv nn hname hnn,
   fun n f B hq hB hd => nvmeRenameSingletonRun n f B hq hB hd⟩

/-- Witness for C9's amended theorem at concrete inputs for both
variants. -/
theorem C9_refetch_by_new_name_witness :
    (sdcReconcile ⟨[⟨"1", "A", "P"⟩], [("1", ["v1"])]⟩
        ⟨some "A", none, none, some "B", "present"⟩ =
      ⟨RunOutcome.ok true
         (some ⟨"1", "B", "P", mappedOf ⟨[⟨"1", "A", "P"⟩], [("1", ["v1"])]⟩ "1"⟩),
       [SdcCall.getFilter "name" "A", SdcCall.getMapped "1",
        SdcCall.rename "1" "B", SdcCall.getFilter "name" "B",
        SdcCall.getMapped "1"],
       ⟨[⟨"1", "B", "P"⟩], [("1", ["v1"])]⟩⟩) ∧
    nvmeReconcile ⟨[⟨"i", "A", "q", 1, 1⟩], "f"⟩
        ⟨none, none, some "B", some "q", none, none, "present"⟩ =
      ⟨RunOutcome.ok true (some ⟨"i", "B", "q", 1, 1⟩),
       [NvmeCall.getFilter "nqn" "q", NvmeCall.rename "i" "B",
        NvmeCall.getFilter "name" "B"],
       ⟨[⟨"i", "B", "q", 1, 1⟩], "f"⟩⟩ :=
  ⟨(C9_refetch_by_new_name ⟨"1", "A", "P"⟩ [("1", ["v1"])] "B"
      (by decide) (by decide)).1,
   (C9_refetch_by_new_name ⟨"1", "A", "P"⟩ [("1", ["v1"])] "B"
      (by decide) (by decide)).2 ⟨"i", "A", "q", 1, 1⟩ "f" "B"
      (by decide) (by decide) (by decide)⟩

/-- C1 amended: neither variant is idempotent in general. The NVMe-host
variant is idempotent for an nqn-identified rename (first invocation
`changed=true`, second `changed=false` with the identical final snapshot)
and issues no rename when the new name equals the current name, but its
tunable-limit path compares the raw supplied string against the
stringified current value, so a non-canonical numeral (`max_num_paths =
"07"` against a stored 7) re-issues the modify call and reports
`changed=true` on every invocation; the SDC variant issues the rename call
unconditionally and reports `changed=true` even when the new name equals
the current remote name. -/
theorem C1_nvme_idempotent_sdc_not (h : NvmeRec) (f B : String)
    (hq : h.nqn ≠ "") (hB : B ≠ "") (hd : B ≠ h.name) :
    (nvmeReconcile ⟨[h], f⟩
        ⟨none, none, some B, some h.nqn, none, none, "present"⟩).outcome =
      RunOutcome.ok true (some { h with name := B }) ∧
    (nvmeReconcile ⟨[h], f⟩
        ⟨none, none, some B, some h.nqn, none, none, "present"⟩).remote =
      ⟨[{ h with name := B }], f⟩ ∧
    (nvmeReconcile ⟨[{ h with name := B }], f⟩
        ⟨none, none, some B, some h.nqn, none, none, "present"⟩).outcome =
      RunOutcome.ok false (some { h with name := B }) ∧
    (∀ (h2 : NvmeRec) (f2 : String), h2.nqn ≠ "" →
       (nvmeReconcile ⟨[h2], f2⟩
           ⟨none, none, some h2.name, some h2.nqn, none, none, "present"⟩).outcome =
         RunOutcome.ok false (some h2) ∧
       ∀ c ∈ (nvmeReconcile ⟨[h2], f2⟩
           ⟨none, none, some h2.name, some h2.nqn, none, none, "present"⟩).calls,
         c ≠ NvmeCall.rename h2.id h2.name) ∧
    (∀ (g : SdcRec) (mv : List (String × List String)), pyStrip g.name ≠ "" →
       (sdcReconcile ⟨[g], mv⟩
           ⟨some g.name, none, none, some g.name, "present"⟩).outcome =
         RunOutcome.ok true
           (some ⟨g.id, g.name, g.sdcIp, mappedOf ⟨[g], mv⟩ g.id⟩) ∧
       SdcCall.rename g.id g.name ∈
         (sdcReconcile ⟨[g], mv⟩
           ⟨some g.name, none, none, some g.name, "present"⟩).calls) ∧
    ((nvmeReconcile ⟨[⟨"i", "A", "q", 7, 1⟩], "f"⟩
        ⟨none, none, none, some "q", some "07", none, "present"⟩).outcome =
       RunOutcome.ok true (some ⟨"i", "A", "q", 7, 1⟩) ∧
     NvmeCall.modifyMaxNumPaths "i" "07" ∈
       (nvmeReconcile ⟨[⟨"i", "A", "q", 7, 1⟩], "f"⟩
         ⟨none, none, none, some "q", some "07", none, "present"⟩).calls ∧
     (nvmeReconcile
        (nvmeReconcile ⟨[⟨"i", "A", "q", 7, 1⟩], "f"⟩
          ⟨none, none, none, some "q", some "07", none, "present"⟩).remote
        ⟨none, none, none, some "q", some "07", none, "present"⟩).outcome =
       RunOutcome.ok true (some ⟨"i", "A", "q", 7, 1⟩)) := by
  have hrun := nvmeRenameSingletonRun h f B hq hB hd
  have hval : nvmeValidateParameters none none (some h.nqn) = none := by
    simp [nvmeValidateParameters, blankSome]
  have hget3 : get_nvme_host ⟨[{ h with name := B }], f⟩ none none (some h.nqn) =
      ([NvmeCall.getFilter "nqn" h.nqn], .ok (some { h with name := B })) := by
    simp [get_nvme_host, pyTruthy, hq, optStr, nvmeCheckRes]
  have hmod2 : perform_modify ⟨[{ h with name := B }], f⟩ { h with name := B }
      (some B) none none = (false, [], ⟨[{ h with name := B }], f⟩) := by
    simp [perform_modify, pyTruthy, optStr]
  refine ⟨?_, ?_, ?_, ?_, ?_, ?_⟩
  · rw [hrun]
  · rw [hrun]
  · simp only [nvmeReconcile, hval, hget3, hmod2]
    simp
  · intro h2 f2 hq2
    have hval2 : nvmeValidateParameters none none (some h2.nqn) = none := by
      simp [nvmeValidateParameters, blankSome]
    have hget4 : get_nvme_host ⟨[h2], f2⟩ none none (some h2.nqn) =
        ([NvmeCall.getFilter "nqn" h2.nqn], .ok (some h2)) := by
      simp [get_nvme_host, pyTruthy, hq2, optStr, nvmeCheckRes]
    have hmod3 : perform_modify ⟨[h2], f2⟩ h2 (some h2.name) none none =
        (false, [], ⟨[h2], f2⟩) := by
      simp [perform_modify, pyTruthy, optStr]
    constructor
    · simp only [nvmeReconcile, hval2, hget4, hmod3]
      simp
    · simp only [nvmeReconcile, hval2, hget4, hmod3]
      simp
  · intro g mv hgname
    have hrun2 := sdcRenameSingletonRun g mv g.name hgname hgname
    constructor
    · rw [hrun2]
    · rw [hrun2]
      simp
  · exact ⟨rfl, by decide, rfl⟩

/-- Witness for C1's amended theorem at a concrete input. -/
theorem C1_nvme_idempotent_sdc_not_witness :
    (nvmeReconcile ⟨[⟨"i", "A", "q", 1, 1⟩], "f"⟩
        ⟨none, none, some "B", some "q", none, none, "present"⟩).outcome =
      RunOutcome.ok true (some ⟨"i", "B", "q", 1, 1⟩) ∧
    (nvmeReconcile ⟨[⟨"i", "A", "q", 1, 1⟩], "f"⟩
        ⟨none, none, some "B", some "q", none, none, "present"⟩).remote =
      ⟨[⟨"i", "B", "q", 1, 1⟩], "f"⟩ ∧
    (nvmeReconcile ⟨[⟨"i", "B", "q", 1, 1⟩], "f"⟩
        ⟨none, none, some "B", some "q", none, none, "present"⟩).outcome =
      RunOutcome.ok false (some ⟨"i", "B", "q", 1, 1⟩) ∧
    (∀ (h2 : NvmeRec) (f2 : String), h2.nqn ≠ "" →
       (nvmeReconcile ⟨[h2], f2⟩
           ⟨none, none, some h2.name, some h2.nqn, none, none, "present"⟩).outcome =
         RunOutcome.ok false (some h2) ∧
       ∀ c ∈ (nvmeReconcile ⟨[h2], f2⟩
           ⟨none, none, some h2.name, some h2.nqn, none, none, "present"⟩).calls,
         c ≠ NvmeCall.rename h2.id h2.name) ∧
    (∀ (g : SdcRec) (mv : List (String × List String)), pyStrip g.name ≠ "" →
       (sdcReconcile ⟨[g], mv⟩
           ⟨some g.name, none, none, some g.name, "present"⟩).outcome =
         RunOutcome.ok true
           (some ⟨g.id, g.name, g.sdcIp, mappedOf ⟨[g], mv⟩ g.id⟩) ∧
       SdcCall.rename g.id g.name ∈
         (sdcReconcile ⟨[g], mv⟩
           ⟨some g.name, none, none, some g.name, "present"⟩).calls) ∧
    ((nvmeReconcile ⟨[⟨"i", "A", "q", 7, 1⟩], "f"⟩
        ⟨none, none, none, some "q", some "07", none, "present"⟩).outcome =
       RunOutcome.ok true (some ⟨"i", "A", "q", 7, 1⟩) ∧
     NvmeCall.modifyMaxNumPaths "i" "07" ∈
       (nvmeReconcile ⟨[⟨"i", "A", "q", 7, 1⟩], "f"⟩
         ⟨none, none, none, some "q", some "07", none, "present"⟩).calls ∧
     (nvmeReconcile
        (nvmeReconcile ⟨[⟨"i", "A", "q", 7, 1⟩], "f"⟩
          ⟨none, none, none, some "q", some "07", none, "present"⟩).remote
        ⟨none, none, none, some "q", some "07", none, "present"⟩).outcome =
       RunOutcome.ok true (some ⟨"i", "A", "q", 7, 1⟩)) :=
  C1_nvme_idempotent_sdc_not ⟨"i", "A", "q", 1, 1⟩ "f" "B"
    (by decide) (by decide) (by decide)
